import Mathlib

/-!
# Trolley web client — verification of the trolley data model and hooks

Shallow embedding of the TypeScript sources under `src/web/src`:

* `types/index.ts` — the wire and client data model,
* `contexts/TrolleyContext.tsx` — the trolley state and its operations,
* `contexts/LocationContext.tsx` — the origin location state,
* `hooks/useTrolleyCompare.ts` and `hooks/useTrolleySuggestions.ts` — the
  request builders and state transitions of the two POST hooks,
* `pages/Trolley.tsx` — the displayed effective prices and the
  suggestions-fetch effect.

JavaScript numbers are modelled as `ℚ` (the claims under study only compare
and select prices, they never rely on binary floating-point rounding);
ISO-8601 timestamps are modelled as `Option Int` epoch instants compared with
an explicit `now : Int`.

The backend comparison engine (ranking, per-line promo pricing) is not part
of the repository sources; where a claim depends on it, a definition marked
`Modelled from the spec:` reproduces the specified behaviour.
-/

namespace Trolley

/-! ## Data model (`src/web/src/types/index.ts`) -/

/-- `Price` from `types/index.ts` (the fields the studied code reads).
`promo_ends_at` is an ISO timestamp in the source, embedded as epoch `Int`. -/
structure Price where
  store_id : String
  store_name : String
  chain : String
  price_nzd : ℚ
  promo_price_nzd : Option ℚ := none
  promo_ends_at : Option Int := none
  deriving Repr, DecidableEq

/-- `Product` from `types/index.ts` (the fields the studied code reads). -/
structure Product where
  id : String
  name : String
  brand : Option String := none
  chain : String
  size : Option String := none
  department : Option String := none
  image_url : Option String := none
  price : Price
  deriving Repr, DecidableEq

/-- `TrolleyItem` from `types/index.ts`. -/
structure TrolleyItem where
  product_id : String
  name : String
  brand : Option String := none
  size : Option String := none
  chain : String
  image_url : Option String := none
  department : Option String := none
  quantity : Int
  deriving Repr, DecidableEq

/-- `TrolleyStoreItem` from `types/index.ts`. -/
structure TrolleyStoreItem where
  source_product_id : String
  source_product_name : String
  quantity : Int
  available : Bool
  matched_product_id : Option String := none
  matched_product_name : Option String := none
  price : Option ℚ := none
  line_total : Option ℚ := none
  deriving Repr, DecidableEq

/-- `TrolleyStoreBreakdown` from `types/index.ts`. -/
structure TrolleyStoreBreakdown where
  store_id : String
  store_name : String
  chain : String
  distance_km : ℚ
  estimated_total : ℚ
  items_available : Int
  items_total : Int
  is_complete : Bool
  items : List TrolleyStoreItem
  deriving Repr, DecidableEq

/-- `TrolleySummary` from `types/index.ts`. -/
structure TrolleySummary where
  total_items : Int
  total_stores : Int
  complete_stores : Int
  deriving Repr, DecidableEq

/-- `TrolleyCompareResponse` from `types/index.ts`. -/
structure TrolleyCompareResponse where
  stores : List TrolleyStoreBreakdown
  items : List TrolleyItem
  summary : TrolleySummary
  deriving Repr, DecidableEq

/-- `SuggestionProduct` from `types/index.ts`.  Note it carries no
`promo_ends_at` field. -/
structure SuggestionProduct where
  product_id : String
  name : String
  brand : Option String := none
  size : Option String := none
  image_url : Option String := none
  price_nzd : ℚ
  promo_price_nzd : Option ℚ := none
  similarity : ℚ
  deriving Repr, DecidableEq

/-- `SuggestionItem` from `types/index.ts`. -/
structure SuggestionItem where
  source_product_id : String
  suggestions : List SuggestionProduct
  deriving Repr, DecidableEq

/-- `TrolleySuggestionsResponse` from `types/index.ts`. -/
structure TrolleySuggestionsResponse where
  items : List SuggestionItem
  deriving Repr, DecidableEq

/-! ## Trolley state (`src/web/src/contexts/TrolleyContext.tsx`) -/

/-- `MAX_ITEMS` from `TrolleyContext.tsx`. -/
def MAX_ITEMS : Nat := 50

/-- `addItem` from `TrolleyContext.tsx`: the `setItems` updater.  If the
product is already present, or the trolley holds `MAX_ITEMS` lines, the
previous list is returned unchanged; otherwise a new line with quantity 1 is
appended. -/
def addItem (prev : List TrolleyItem) (product : Product) : List TrolleyItem :=
  match prev.find? (fun i => i.product_id == product.id) with
  | some _ => prev
  | none =>
    if prev.length ≥ MAX_ITEMS then prev
    else
      prev ++ [{ product_id := product.id
                 name := product.name
                 brand := product.brand
                 size := product.size
                 chain := product.chain
                 image_url := product.image_url
                 department := product.department
                 quantity := 1 }]

/-- `removeItem` from `TrolleyContext.tsx`: the `setItems` updater. -/
def removeItem (prev : List TrolleyItem) (productId : String) : List TrolleyItem :=
  prev.filter (fun i => i.product_id != productId)

/-- `updateQuantity` from `TrolleyContext.tsx`: the `setItems` updater;
`Math.max(1, Math.min(99, quantity))`. -/
def updateQuantity (prev : List TrolleyItem) (productId : String) (quantity : Int) :
    List TrolleyItem :=
  let clamped := max 1 (min 99 quantity)
  prev.map (fun i =>
    if i.product_id == productId then { i with quantity := clamped } else i)

/-- `clearTrolley` from `TrolleyContext.tsx`. -/
def clearTrolley (_prev : List TrolleyItem) : List TrolleyItem := []

/-- Trolley states reachable from the empty trolley through the four
`TrolleyContext` operations. -/
inductive ReachableTrolley : List TrolleyItem → Prop
  | init : ReachableTrolley []
  | add {s} (product : Product) : ReachableTrolley s → ReachableTrolley (addItem s product)
  | remove {s} (productId : String) :
      ReachableTrolley s → ReachableTrolley (removeItem s productId)
  | update {s} (productId : String) (quantity : Int) :
      ReachableTrolley s → ReachableTrolley (updateQuantity s productId quantity)
  | clear {s} : ReachableTrolley s → ReachableTrolley (clearTrolley s)

/-! ## Origin location (`src/web/src/contexts/LocationContext.tsx`) -/

/-- `Location` from `types/index.ts`. -/
structure Location where
  lat : ℚ
  lon : ℚ
  deriving Repr, DecidableEq

/-- The `source` discriminator of `LocationData`. -/
inductive LocationSource where
  | auto
  | manual
  deriving Repr, DecidableEq

/-- `LocationData` from `LocationContext.tsx`. -/
structure LocationData where
  location : Location
  source : LocationSource
  timestamp : Int
  radiusKm : ℚ
  deriving Repr, DecidableEq

/-- The `LocationContext` state the studied operations read and write:
`locationData` and `error`. -/
structure LocationState where
  locationData : Option LocationData
  error : Option String
  deriving Repr, DecidableEq

/-- `DEFAULT_RADIUS_KM` from `LocationContext.tsx`. -/
def DEFAULT_RADIUS_KM : ℚ := 2

/-- The New Zealand bounds check shared by `setManualLocation` and
`requestAutoLocation` in `LocationContext.tsx`:
`lat >= -47 && lat <= -34 && lon >= 165 && lon <= 179`. -/
def isInNZ (lat lon : ℚ) : Bool :=
  decide (lat ≥ -47) && decide (lat ≤ -34) && decide (lon ≥ 165) && decide (lon ≤ 179)

/-- `setManualLocation` from `LocationContext.tsx`.  `now` stands for
`Date.now()`. -/
def setManualLocation (s : LocationState) (now : Int) (lat lon : ℚ)
    (radius : Option ℚ) : LocationState :=
  if !isInNZ lat lon then
    { s with error := some "Please select a location within New Zealand" }
  else
    { locationData := some
        { location := { lat := lat, lon := lon }
          source := .manual
          timestamp := now
          radiusKm := radius.getD ((s.locationData.map (·.radiusKm)).getD DEFAULT_RADIUS_KM) }
      error := none }

/-- The success callback of `requestAutoLocation` in `LocationContext.tsx`,
applied to a device position `(lat, lon)`; the surrounding code has already
set `error := none` (`setError(null)` before the geolocation call). -/
def requestAutoLocationSuccess (s : LocationState) (now : Int) (lat lon : ℚ) :
    LocationState :=
  let s := { s with error := none }
  if !isInNZ lat lon then
    { s with error := some "Troll-E is currently only available in New Zealand" }
  else
    { locationData := some
        { location := { lat := lat, lon := lon }
          source := .auto
          timestamp := now
          radiusKm := (s.locationData.map (·.radiusKm)).getD DEFAULT_RADIUS_KM }
      error := s.error }

/-- `setRadiusKm` from `LocationContext.tsx`:
`Math.max(1, Math.min(10, radius))`, stored only when a location is set. -/
def setRadiusKm (s : LocationState) (now : Int) (radius : ℚ) : LocationState :=
  let clampedRadius := max 1 (min 10 radius)
  match s.locationData with
  | some d =>
      { s with locationData := some { d with radiusKm := clampedRadius, timestamp := now } }
  | none => s

/-! ## Compare hook (`src/web/src/hooks/useTrolleyCompare.ts`) -/

/-- One element of the `items` array posted to `POST /trolley/compare`:
exactly the two fields `product_id` and `quantity`. -/
structure CompareRequestItem where
  product_id : String
  quantity : Int
  deriving Repr, DecidableEq

/-- The body posted to `POST /trolley/compare`. -/
structure CompareRequest where
  items : List CompareRequestItem
  lat : ℚ
  lon : ℚ
  radius_km : ℚ
  deriving Repr, DecidableEq

/-- The request body built by `compare` in `useTrolleyCompare.ts`. -/
def compareRequestBody (items : List TrolleyItem) (lat lon radiusKm : ℚ) :
    CompareRequest :=
  { items := items.map (fun i => { product_id := i.product_id, quantity := i.quantity })
    lat := lat
    lon := lon
    radius_km := radiusKm }

/-- The state of `useTrolleyCompare`. -/
structure CompareState where
  comparison : Option TrolleyCompareResponse
  error : Option String
  loading : Bool
  deriving Repr, DecidableEq

/-- How one awaited `axios.post` in `compare` resolves: with data, with a
cancellation (the request's `AbortController` was aborted by a newer call or
by unmount), or with any other failure. -/
inductive CompareOutcome where
  | success (data : TrolleyCompareResponse)
  | cancelled
  | failure
  deriving Repr, DecidableEq

/-- The state transition of one `compare` call in `useTrolleyCompare.ts`:
`setLoading(true); setError(null)`, then the `try/catch/finally` on the given
outcome.  On cancellation the `catch` returns before touching any state, and
only the `finally` (`setLoading(false)`) runs. -/
def compareStep (s : CompareState) (outcome : CompareOutcome) : CompareState :=
  let s := { s with loading := true, error := none }
  match outcome with
  | .success data => { s with comparison := some data, loading := false }
  | .cancelled => { s with loading := false }
  | .failure =>
      { s with error := some "Failed to compare trolley prices"
               comparison := none
               loading := false }

/-! ## Suggestions hook (`src/web/src/hooks/useTrolleySuggestions.ts`) -/

/-- One element of the `items` array posted to `POST /trolley/suggestions`. -/
structure SuggestionsRequestItem where
  product_id : String
  quantity : Int
  deriving Repr, DecidableEq

/-- The body posted to `POST /trolley/suggestions`. -/
structure SuggestionsRequest where
  store_id : String
  items : List SuggestionsRequestItem
  deriving Repr, DecidableEq

/-- The request body built by `fetchSuggestions` in
`useTrolleySuggestions.ts`: `product_ids.map((id) => ({ product_id: id,
quantity: 1 }))`. -/
def suggestionsRequestBody (store_id : String) (product_ids : List String) :
    SuggestionsRequest :=
  { store_id := store_id
    items := product_ids.map (fun id => { product_id := id, quantity := 1 }) }

/-- The state of `useTrolleySuggestions`. -/
structure SuggestionsState where
  suggestions : Option TrolleySuggestionsResponse
  loading : Bool
  deriving Repr, DecidableEq

/-- The externally observable actions of one `fetchSuggestions` call. -/
structure SuggestionsEffects where
  requestSent : Option SuggestionsRequest
  abortedPrevious : Bool
  deriving Repr, DecidableEq

/-- How an awaited `axios.post` in `fetchSuggestions` resolves. -/
inductive SuggestionsOutcome where
  | success (data : TrolleySuggestionsResponse)
  | cancelled
  | failure
  deriving Repr, DecidableEq

/-- The state transition and effects of one `fetchSuggestions` call in
`useTrolleySuggestions.ts`.  An empty `product_ids` list returns after
`setSuggestions(null)`, before the abort of the previous request and before
any `axios.post`. -/
def fetchSuggestions (s : SuggestionsState) (store_id : String)
    (product_ids : List String) (outcome : SuggestionsOutcome) :
    SuggestionsState × SuggestionsEffects :=
  if product_ids.length = 0 then
    ({ s with suggestions := none }, { requestSent := none, abortedPrevious := false })
  else
    let req := suggestionsRequestBody store_id product_ids
    let s := { s with loading := true }
    let s :=
      match outcome with
      | .success data => { s with suggestions := some data, loading := false }
      | .cancelled => { s with loading := false }
      | .failure => { s with suggestions := none, loading := false }
    (s, { requestSent := some req, abortedPrevious := true })

/-! ## Trolley page (`src/web/src/pages/Trolley.tsx`) -/

/-- `sugPrice` from `Trolley.tsx` (line 404):
`sug.promo_price_nzd ?? sug.price_nzd`. -/
def sugPrice (sug : SuggestionProduct) : ℚ :=
  sug.promo_price_nzd.getD sug.price_nzd

/-- `effectivePrice` from `SearchResultRow` in `Trolley.tsx` (line 547):
`product.price.promo_price_nzd ?? product.price.price_nzd`. -/
def effectivePrice (product : Product) : ℚ :=
  product.price.promo_price_nzd.getD product.price.price_nzd

/-- The unavailable source ids computed by the suggestions effect in
`Trolley.tsx`:
`selectedStore.items.filter((i) => !i.available).map((i) => i.source_product_id)`. -/
def unavailableIds (store : TrolleyStoreBreakdown) : List String :=
  (store.items.filter (fun i => !i.available)).map (fun i => i.source_product_id)

/-- The suggestions-fetch effect in `Trolley.tsx`: nothing happens for a
complete store; otherwise `fetchSuggestions` is invoked exactly when the
unavailable id list is non-empty. -/
def suggestionsEffect (store : TrolleyStoreBreakdown) : Option SuggestionsRequest :=
  if store.is_complete then none
  else
    let ids := unavailableIds store
    if ids.length > 0 then some (suggestionsRequestBody store.store_id ids) else none

/-! ## Backend pricing and ranking, modelled from the spec -/

/-- A store offer as in the spec's data model (§3):
`{ store_id, product_id, price, promo_price?, promo_ends_at? }`. -/
structure StoreOffer where
  store_id : String
  product_id : String
  price : ℚ
  promo_price : Option ℚ := none
  promo_ends_at : Option Int := none
  deriving Repr, DecidableEq

/-- Modelled from the spec: the backend Store Comparator's per-line unit
price (spec §3 invariant and §8 promo application); the comparator itself is
not under `src/`.  `unit_price` is `promo_price` if present, not expired
(`promo_ends_at` absent or strictly in the future of `now`) and strictly
lower than `price`; otherwise `price`. -/
def unit_price (now : Int) (offer : StoreOffer) : ℚ :=
  match offer.promo_price with
  | some pp =>
      if pp < offer.price ∧ (offer.promo_ends_at.getD (now + 1)) > now then pp
      else offer.price
  | none => offer.price

/-- Modelled from the spec: completeness as a sort key — complete stores
rank before incomplete ones (spec §4.3). -/
def completenessRank (s : TrolleyStoreBreakdown) : Nat :=
  if s.is_complete then 0 else 1

/-- Modelled from the spec: the comparison engine's ranking order (spec
§4.3); the engine is not under `src/`.  `is_complete` descending, then
`estimated_total` ascending, then `distance_km` ascending. -/
def storeRankLE (a b : TrolleyStoreBreakdown) : Bool :=
  decide (completenessRank a < completenessRank b) ||
    (decide (completenessRank a = completenessRank b) &&
      (decide (a.estimated_total < b.estimated_total) ||
        (decide (a.estimated_total = b.estimated_total) &&
          decide (a.distance_km ≤ b.distance_km))))

/-- Modelled from the spec: the comparison engine sorts the per-store
breakdowns by `storeRankLE` before returning them (spec §4.3, §5: output
ordering is fully determined by the ranking algorithm). -/
def rankStores (stores : List TrolleyStoreBreakdown) : List TrolleyStoreBreakdown :=
  stores.mergeSort storeRankLE

/-! ## Concrete sample data, used to instantiate the theorems -/

/-- A concrete product, as returned by the products search. -/
def sampleProduct : Product :=
  { id := "p1", name := "Milk", chain := "countdown"
    price := { store_id := "s1", store_name := "Store 1", chain := "countdown"
               price_nzd := 3 } }

/-- The trolley line `addItem` creates from `sampleProduct`. -/
def sampleLine : TrolleyItem :=
  { product_id := "p1", name := "Milk", chain := "countdown", quantity := 1 }

/-- A concrete product whose promo price (5) is higher than its regular
price (3). -/
def promoNotLowerProduct : Product :=
  { id := "p2", name := "Cheese", chain := "countdown"
    price := { store_id := "s1", store_name := "Store 1", chain := "countdown"
               price_nzd := 3, promo_price_nzd := some 5 } }

/-- A concrete incomplete store breakdown: one of its two lines is
unavailable. -/
def incompleteBreakdown : TrolleyStoreBreakdown :=
  { store_id := "sA", store_name := "Store A", chain := "countdown"
    distance_km := 1, estimated_total := 5
    items_available := 1, items_total := 2, is_complete := false
    items :=
      [ { source_product_id := "p1", source_product_name := "Milk"
          quantity := 1, available := false }
      , { source_product_id := "p2", source_product_name := "Cheese"
          quantity := 2, available := true } ] }

/-- A concrete complete store breakdown, dearer than `incompleteBreakdown`. -/
def completeBreakdown : TrolleyStoreBreakdown :=
  { store_id := "sB", store_name := "Store B", chain := "paknsave"
    distance_km := 3, estimated_total := 20
    items_available := 2, items_total := 2, is_complete := true
    items := [] }

/-- A concrete location state holding a stored manual location with
radius 2. -/
def storedLocationState : LocationState :=
  { locationData := some
      { location := { lat := -41, lon := 174 }
        source := .manual, timestamp := 0, radiusKm := 2 }
    error := none }

/-- The empty location state. -/
def emptyLocationState : LocationState :=
  { locationData := none, error := none }

/-- A concrete suggestion whose promo price (5) is higher than its regular
price (3). -/
def promoNotLowerSuggestion : SuggestionProduct :=
  { product_id := "q1", name := "Alt Cheese", price_nzd := 3
    promo_price_nzd := some 5, similarity := 1 }

/-- A concrete offer with an active promo: 2 instead of 3 until instant
200. -/
def offerActivePromo : StoreOffer :=
  { store_id := "s1", product_id := "p1", price := 3
    promo_price := some 2, promo_ends_at := some 200 }

/-- A concrete offer whose promo (2 instead of 3) expired at instant 50. -/
def offerExpiredPromo : StoreOffer :=
  { store_id := "s1", product_id := "p1", price := 3
    promo_price := some 2, promo_ends_at := some 50 }

/-! ## Helper lemmas on the trolley operations -/

/-- Every member of `addItem s product` was in `s` or is the freshly
inserted quantity-1 line. -/
theorem mem_addItem {s : List TrolleyItem} {product : Product} {i : TrolleyItem}
    (h : i ∈ addItem s product) : i ∈ s ∨ i.quantity = 1 := by
  unfold addItem at h
  cases hf : s.find? (fun j => j.product_id == product.id) with
  | some j => rw [hf] at h; exact Or.inl h
  | none =>
    rw [hf] at h
    by_cases hlen : s.length ≥ MAX_ITEMS
    · rw [if_pos hlen] at h; exact Or.inl h
    · rw [if_neg hlen] at h
      rcases List.mem_append.mp h with h | h
      · exact Or.inl h
      · right
        have : i = { product_id := product.id, name := product.name
                     brand := product.brand, size := product.size
                     chain := product.chain, image_url := product.image_url
                     department := product.department
                     quantity := 1 } := List.mem_singleton.mp h
        rw [this]

/-- Every member of `updateQuantity s productId q` is an old line or an old
line with its quantity clamped. -/
theorem mem_updateQuantity {s : List TrolleyItem} {productId : String} {q : Int}
    {i : TrolleyItem} (h : i ∈ updateQuantity s productId q) :
    ∃ j ∈ s, i = j ∨ i = { j with quantity := max 1 (min 99 q) } := by
  unfold updateQuantity at h
  rcases List.mem_map.mp h with ⟨j, hj, hji⟩
  refine ⟨j, hj, ?_⟩
  by_cases hid : (j.product_id == productId) = true
  · right; rw [← hji, if_pos hid]
  · left; rw [← hji, if_neg hid]

/-- `updateQuantity` does not change a line whose `product_id` differs,
and sets the matching lines to the clamped quantity. -/
theorem updateQuantity_quantity {s : List TrolleyItem} {productId : String}
    {q : Int} {i : TrolleyItem} (h : i ∈ updateQuantity s productId q)
    (hid : i.product_id = productId) : i.quantity = max 1 (min 99 q) := by
  unfold updateQuantity at h
  rcases List.mem_map.mp h with ⟨j, _, hji⟩
  by_cases hjd : (j.product_id == productId) = true
  · rw [← hji, if_pos hjd]
  · exfalso
    rw [← hji, if_neg hjd] at hid
    exact hjd (beq_iff_eq.mpr hid)

/-- `removeItem` only ever removes lines. -/
theorem removeItem_sublist (s : List TrolleyItem) (productId : String) :
    (removeItem s productId).Sublist s :=
  List.filter_sublist s

/-! ## Claim C3 — trolley quantities stay in [1, 99] -/

/-- Claim C3: every line of every reachable trolley state has quantity in
`[1, 99]`; `addItem` inserts quantity 1; after `updateQuantity(productId, q)`
with any integer `q`, every line carrying `productId` has quantity in
`[1, 99]` (out-of-range values are clamped, never stored). -/
theorem trolley_quantity_bounds :
    (∀ s, ReachableTrolley s → ∀ i ∈ s, 1 ≤ i.quantity ∧ i.quantity ≤ 99) ∧
    (∀ s product i, i ∈ addItem s product → i ∉ s → i.quantity = 1) ∧
    (∀ s productId q i, i ∈ updateQuantity s productId q →
      i.product_id = productId → 1 ≤ i.quantity ∧ i.quantity ≤ 99) := by
  refine ⟨?_, ?_, ?_⟩
  · intro s hs
    induction hs with
    | init => intro i hi; cases hi
    | add product _ ih =>
      intro i hi
      rcases mem_addItem hi with h | h
      · exact ih i h
      · rw [h]; exact ⟨le_refl 1, by omega⟩
    | remove productId _ ih =>
      intro i hi
      exact ih i ((removeItem_sublist _ _).mem hi)
    | update productId q _ ih =>
      intro i hi
      rcases mem_updateQuantity hi with ⟨j, hj, hij | hij⟩
      · rw [hij]; exact ih j hj
      · rw [hij]; dsimp only; omega
    | clear _ => intro i hi; cases hi
  · intro s product i hi hnot
    rcases mem_addItem hi with h | h
    · exact absurd h hnot
    · exact h
  · intro s productId q i hi hid
    rw [updateQuantity_quantity hi hid]
    omega

/-- Instantiation of C3 at a concrete reachable state and concrete calls. -/
theorem trolley_quantity_bounds_witness :
    1 ≤ sampleLine.quantity ∧ sampleLine.quantity ≤ 99 :=
  trolley_quantity_bounds.1 (addItem [] sampleProduct)
    (.add sampleProduct .init) sampleLine
    (by simp [addItem, sampleProduct, sampleLine, MAX_ITEMS])

/-! ## Claim C9 — distinct product ids, at most `MAX_ITEMS` lines -/

/-- The id-distinctness and size cap, preserved by `addItem`. -/
theorem addItem_invariant (s : List TrolleyItem) (product : Product)
    (h : (s.map (fun i => i.product_id)).Nodup ∧ s.length ≤ MAX_ITEMS) :
    ((addItem s product).map (fun i => i.product_id)).Nodup ∧
      (addItem s product).length ≤ MAX_ITEMS := by
  obtain ⟨nd, len⟩ := h
  unfold addItem
  cases hf : s.find? (fun j => j.product_id == product.id) with
  | some j => exact ⟨nd, len⟩
  | none =>
    by_cases hlen : s.length ≥ MAX_ITEMS
    · rw [if_pos hlen]; exact ⟨nd, len⟩
    · rw [if_neg hlen]
      have hx : product.id ∉ s.map (fun i => i.product_id) := by
        intro hmem
        rcases List.mem_map.mp hmem with ⟨j, hj, hje⟩
        exact absurd (beq_iff_eq.mpr hje) (List.find?_eq_none.mp hf j hj)
      constructor
      · rw [List.map_append, List.nodup_append]
        exact ⟨nd, List.nodup_singleton _, by simpa using hx⟩
      · rw [List.length_append]
        have : s.length < MAX_ITEMS := Nat.lt_of_not_le hlen
        simpa using this

/-- `updateQuantity` leaves the projected id list untouched. -/
theorem updateQuantity_map_id (s : List TrolleyItem) (productId : String) (q : Int) :
    (updateQuantity s productId q).map (fun i => i.product_id) =
      s.map (fun i => i.product_id) := by
  unfold updateQuantity
  rw [List.map_map]
  apply List.map_congr_left
  intro a _
  dsimp only [Function.comp]
  split <;> rfl

/-- Claim C9: every reachable trolley state has pairwise-distinct product
ids and at most `MAX_ITEMS` lines; `addItem` on a duplicate id or on a full
trolley returns the previous state unchanged. -/
theorem trolley_distinct_and_capped :
    (∀ s, ReachableTrolley s →
      (s.map (fun i => i.product_id)).Nodup ∧ s.length ≤ MAX_ITEMS) ∧
    (∀ s product, (∃ i ∈ s, i.product_id = product.id) → addItem s product = s) ∧
    (∀ s product, MAX_ITEMS ≤ s.length → addItem s product = s) := by
  refine ⟨?_, ?_, ?_⟩
  · intro s hs
    induction hs with
    | init => exact ⟨List.nodup_nil, by simp [MAX_ITEMS]⟩
    | add product _ ih => exact addItem_invariant _ _ ih
    | remove productId _ ih =>
      rcases ih with ⟨nd, len⟩
      refine ⟨nd.sublist ((removeItem_sublist _ _).map _), ?_⟩
      exact le_trans (removeItem_sublist _ _).length_le len
    | update productId q _ ih =>
      rcases ih with ⟨nd, len⟩
      refine ⟨by rw [updateQuantity_map_id]; exact nd, ?_⟩
      simpa [updateQuantity] using len
    | clear _ => exact ⟨List.nodup_nil, by simp [clearTrolley, MAX_ITEMS]⟩
  · rintro s product ⟨i, hi, hieq⟩
    unfold addItem
    cases hf : s.find? (fun j => j.product_id == product.id) with
    | some j => rfl
    | none =>
      exact absurd (beq_iff_eq.mpr hieq) (List.find?_eq_none.mp hf i hi)
  · intro s product hlen
    unfold addItem
    cases hf : s.find? (fun j => j.product_id == product.id) with
    | some j => rfl
    | none => rw [if_pos hlen]

/-- Instantiation of C9: adding an already-present product id changes
nothing. -/
theorem trolley_distinct_and_capped_witness :
    addItem [sampleLine] sampleProduct = [sampleLine] :=
  trolley_distinct_and_capped.2.1 [sampleLine] sampleProduct
    ⟨sampleLine, List.mem_singleton_self _, rfl⟩

/-! ## Claim C4 — shape of the compare request body -/

/-- Claim C4: the body posted to `POST /trolley/compare` is exactly
`{ items, lat, lon, radius_km }`, where the j-th element of `items` carries
exactly the `product_id` and `quantity` of the j-th trolley item (order
preserved, all other `TrolleyItem` fields dropped). -/
theorem compareRequestBody_shape (items : List TrolleyItem) (lat lon radiusKm : ℚ) :
    (compareRequestBody items lat lon radiusKm).lat = lat ∧
    (compareRequestBody items lat lon radiusKm).lon = lon ∧
    (compareRequestBody items lat lon radiusKm).radius_km = radiusKm ∧
    (compareRequestBody items lat lon radiusKm).items.length = items.length ∧
    ∀ j : Nat,
      (compareRequestBody items lat lon radiusKm).items[j]? =
        (items[j]?).map
          (fun i => { product_id := i.product_id, quantity := i.quantity }) := by
  refine ⟨rfl, rfl, rfl, by simp [compareRequestBody], ?_⟩
  intro j
  simp [compareRequestBody]

/-! ## Claim C5 — shape of the suggestions request body -/

/-- Claim C5: for an incomplete selected store, the body posted to
`POST /trolley/suggestions` carries the store id, one `quantity := 1` entry
per unavailable line, and a `product_id` list equal (in breakdown order) to
the unavailable source ids. -/
theorem suggestions_request_shape (store : TrolleyStoreBreakdown)
    (req : SuggestionsRequest) (hc : store.is_complete = false)
    (hreq : suggestionsEffect store = some req) :
    req.store_id = store.store_id ∧
    req.items.map (fun it => it.product_id) = unavailableIds store ∧
    ∀ it ∈ req.items, it.quantity = 1 := by
  simp only [suggestionsEffect, hc, Bool.false_eq_true, if_false] at hreq
  by_cases hlen : 0 < (unavailableIds store).length
  · rw [if_pos hlen, Option.some_inj] at hreq
    subst hreq
    refine ⟨rfl, ?_, ?_⟩
    · simp only [suggestionsRequestBody, List.map_map]
      exact List.map_id _
    · intro it hit
      rcases List.mem_map.mp hit with ⟨id, _, hid⟩
      rw [← hid]
  · rw [if_neg hlen] at hreq
    cases hreq

/-- Instantiation of C5 on the concrete incomplete breakdown. -/
theorem suggestions_request_shape_witness :
    ({ store_id := "sA", items := [{ product_id := "p1", quantity := 1 }] }
        : SuggestionsRequest).store_id = incompleteBreakdown.store_id ∧
    ({ store_id := "sA", items := [{ product_id := "p1", quantity := 1 }] }
        : SuggestionsRequest).items.map (fun it => it.product_id) =
      unavailableIds incompleteBreakdown := by
  have h := suggestions_request_shape incompleteBreakdown
      { store_id := "sA", items := [{ product_id := "p1", quantity := 1 }] }
      rfl (by decide)
  exact ⟨h.1, h.2.1⟩

/-! ## Claim C8 — a cancelled compare stores nothing -/

/-- Claim C8: a cancelled `compare` call stores no comparison data and sets
no error message: the previously held comparison survives unchanged, the
error is the null the call itself installed at start, and loading ends
false. -/
theorem compare_cancelled_no_partial (s : CompareState) :
    (compareStep s .cancelled).comparison = s.comparison ∧
    (compareStep s .cancelled).error = none ∧
    (compareStep s .cancelled).loading = false := by
  simp [compareStep]

/-! ## Claim C10 — empty suggestion fetches are network no-ops -/

/-- Claim C10: `fetchSuggestions` with an empty id list issues no request,
aborts nothing, clears the stored suggestions and leaves loading untouched;
with a non-empty id list it posts the mapped body. -/
theorem fetchSuggestions_empty_noop :
    (∀ (s : SuggestionsState) (store_id : String) (outcome : SuggestionsOutcome),
      (fetchSuggestions s store_id [] outcome).2.requestSent = none ∧
      (fetchSuggestions s store_id [] outcome).2.abortedPrevious = false ∧
      (fetchSuggestions s store_id [] outcome).1.suggestions = none ∧
      (fetchSuggestions s store_id [] outcome).1.loading = s.loading) ∧
    (∀ (s : SuggestionsState) (store_id : String) (product_ids : List String)
        (outcome : SuggestionsOutcome),
      product_ids ≠ [] →
      (fetchSuggestions s store_id product_ids outcome).2.requestSent =
        some (suggestionsRequestBody store_id product_ids)) := by
  constructor
  · intro s store_id outcome
    simp [fetchSuggestions]
  · intro s store_id product_ids outcome hne
    have hlen : product_ids.length ≠ 0 := by simpa using hne
    simp [fetchSuggestions, hlen]

/-- Instantiation of C10 on a concrete non-empty id list. -/
theorem fetchSuggestions_empty_noop_witness :
    (fetchSuggestions { suggestions := none, loading := false } "sA" ["p1"]
        .cancelled).2.requestSent = some (suggestionsRequestBody "sA" ["p1"]) :=
  fetchSuggestions_empty_noop.2 { suggestions := none, loading := false }
    "sA" ["p1"] .cancelled (by simp)

/-! ## Claim C6 — origin coordinates are bounds-checked -/

/-- Claim C6: a manual or auto location is stored exactly when
`lat ∈ [-47, -34]` and `lon ∈ [165, 179]`; out-of-bounds coordinates set an
error message and leave the stored location data unchanged. -/
theorem setLocation_bounds (s : LocationState) (now : Int) (lat lon : ℚ)
    (radius : Option ℚ) :
    ((-47 ≤ lat ∧ lat ≤ -34 ∧ 165 ≤ lon ∧ lon ≤ 179) →
      (setManualLocation s now lat lon radius).locationData.map (fun d => d.location) =
          some { lat := lat, lon := lon } ∧
        (setManualLocation s now lat lon radius).error = none ∧
        (requestAutoLocationSuccess s now lat lon).locationData.map (fun d => d.location) =
          some { lat := lat, lon := lon } ∧
        (requestAutoLocationSuccess s now lat lon).error = none) ∧
    (¬(-47 ≤ lat ∧ lat ≤ -34 ∧ 165 ≤ lon ∧ lon ≤ 179) →
      (setManualLocation s now lat lon radius).locationData = s.locationData ∧
        (setManualLocation s now lat lon radius).error =
          some "Please select a location within New Zealand" ∧
        (requestAutoLocationSuccess s now lat lon).locationData = s.locationData ∧
        (requestAutoLocationSuccess s now lat lon).error =
          some "Troll-E is currently only available in New Zealand") := by
  have hiff : isInNZ lat lon = true ↔
      (-47 ≤ lat ∧ lat ≤ -34 ∧ 165 ≤ lon ∧ lon ≤ 179) := by
    simp [isInNZ, and_assoc]
  constructor
  · intro h
    have ht : isInNZ lat lon = true := hiff.mpr h
    refine ⟨?_, ?_, ?_, ?_⟩ <;>
      simp [setManualLocation, requestAutoLocationSuccess, ht]
  · intro h
    have hf : isInNZ lat lon = false := by
      cases hi : isInNZ lat lon
      · rfl
      · exact absurd (hiff.mp hi) h
    refine ⟨?_, ?_, ?_, ?_⟩ <;>
      simp [setManualLocation, requestAutoLocationSuccess, hf]

/-- Instantiation of C6: Wellington is stored, a northern-hemisphere point
is rejected. -/
theorem setLocation_bounds_witness :
    (setManualLocation emptyLocationState 0 (-41) 174 none).locationData.map
        (fun d => d.location) = some { lat := -41, lon := 174 } ∧
    (setManualLocation emptyLocationState 0 48 2 none).locationData = none := by
  refine ⟨((setLocation_bounds emptyLocationState 0 (-41) 174 none).1 (by decide)).1, ?_⟩
  exact ((setLocation_bounds emptyLocationState 0 48 2 none).2 (by decide)).1

/-! ## Claim C7 — out-of-range radius is clamped, not rejected -/

/-- Counterexample to C7 as stated: `setRadiusKm(50)` on a state with a
stored location silently stores the clamped radius 10 and produces no
validation error. -/
theorem setRadiusKm_not_rejected :
    (setRadiusKm storedLocationState 1 50).locationData.map (fun d => d.radiusKm) =
        some 10 ∧
      (setRadiusKm storedLocationState 1 50).error = none := by
  decide

/-- Amended C7: `setRadiusKm(r)` never raises an error; when a location is
stored it clamps `r` into `[1, 10]` and stores the clamped value, and when
no location is stored it does nothing. -/
theorem setRadiusKm_clamps (s : LocationState) (now : Int) (radius : ℚ) :
    (setRadiusKm s now radius).error = s.error ∧
    (s.locationData = none → setRadiusKm s now radius = s) ∧
    ∀ d, s.locationData = some d →
      (setRadiusKm s now radius).locationData.map (fun x => x.radiusKm) =
          some (max 1 (min 10 radius)) ∧
        1 ≤ max 1 (min 10 radius) ∧ max 1 (min 10 radius) ≤ 10 := by
  refine ⟨?_, ?_, ?_⟩
  · cases h : s.locationData with
    | none => simp [setRadiusKm, h]
    | some d => simp [setRadiusKm, h]
  · intro h
    simp [setRadiusKm, h]
  · intro d h
    refine ⟨by simp [setRadiusKm, h], le_max_left 1 _, ?_⟩
    exact max_le (by norm_num) (min_le_left _ _)

/-- Instantiation of the amended C7 at radius 50. -/
theorem setRadiusKm_clamps_witness :
    (setRadiusKm storedLocationState 1 50).locationData.map (fun x => x.radiusKm) =
        some (max 1 (min 10 50)) ∧
      max 1 (min 10 (50 : ℚ)) = 10 :=
  ⟨((setRadiusKm_clamps storedLocationState 1 50).2.2 _ rfl).1, by decide⟩

/-! ## Claim C1 — promo rule for pricing versus display -/

/-- Counterexample to C1 as stated: the displayed effective price uses a
present promo price (5) even though it is not lower than the regular price
(3), for both the search row and the suggestion row. -/
theorem effectivePrice_uses_promo_even_when_not_lower :
    promoNotLowerProduct.price.promo_price_nzd = some 5 ∧
    promoNotLowerProduct.price.price_nzd = 3 ∧
    ¬((5 : ℚ) < 3) ∧
    effectivePrice promoNotLowerProduct = 5 ∧
    effectivePrice promoNotLowerProduct ≠ promoNotLowerProduct.price.price_nzd ∧
    promoNotLowerSuggestion.promo_price_nzd = some 5 ∧
    promoNotLowerSuggestion.price_nzd = 3 ∧
    sugPrice promoNotLowerSuggestion = 5 := by
  refine ⟨rfl, rfl, by decide, rfl, by decide, rfl, rfl, rfl⟩

/-- Amended C1: the backend per-line `unit_price` (modelled from the spec)
uses the promo price exactly when it is present, unexpired and strictly
lower than the regular price; the prices displayed by the Trolley page
(`sugPrice`, `effectivePrice`) instead use the promo price whenever it is
present, with no expiry or lower-than check. -/
theorem unit_price_and_display_rule :
    (∀ (now : Int) (offer : StoreOffer) (pp : ℚ), offer.promo_price = some pp →
      ((pp < offer.price ∧ ∀ e, offer.promo_ends_at = some e → now < e) →
        unit_price now offer = pp) ∧
      ((¬pp < offer.price ∨ ∃ e, offer.promo_ends_at = some e ∧ e ≤ now) →
        unit_price now offer = offer.price)) ∧
    (∀ (now : Int) (offer : StoreOffer), offer.promo_price = none →
      unit_price now offer = offer.price) ∧
    (∀ (sug : SuggestionProduct) (pp : ℚ), sug.promo_price_nzd = some pp →
      sugPrice sug = pp) ∧
    (∀ sug : SuggestionProduct, sug.promo_price_nzd = none →
      sugPrice sug = sug.price_nzd) ∧
    (∀ (product : Product) (pp : ℚ), product.price.promo_price_nzd = some pp →
      effectivePrice product = pp) ∧
    (∀ product : Product, product.price.promo_price_nzd = none →
      effectivePrice product = product.price.price_nzd) := by
  refine ⟨?_, ?_, ?_, ?_, ?_, ?_⟩
  · intro now offer pp hpp
    constructor
    · rintro ⟨hlt, hend⟩
      have hcond : pp < offer.price ∧ offer.promo_ends_at.getD (now + 1) > now := by
        refine ⟨hlt, ?_⟩
        cases hh : offer.promo_ends_at with
        | none => simp
        | some e => simpa using hend e hh
      simp only [unit_price, hpp]
      rw [if_pos hcond]
    · intro h
      have hcond : ¬(pp < offer.price ∧ offer.promo_ends_at.getD (now + 1) > now) := by
        rcases h with h | ⟨e, he, hle⟩
        · exact fun hc => h hc.1
        · intro hc
          rw [he] at hc
          exact absurd hc.2 (by simpa using not_lt.mpr hle)
      simp only [unit_price, hpp]
      rw [if_neg hcond]
  · intro now offer hpp
    simp only [unit_price, hpp]
  · intro sug pp hpp
    unfold sugPrice
    rw [hpp]
    rfl
  · intro sug hpp
    unfold sugPrice
    rw [hpp]
    rfl
  · intro product pp hpp
    unfold effectivePrice
    rw [hpp]
    rfl
  · intro product hpp
    unfold effectivePrice
    rw [hpp]
    rfl

/-- Instantiation of the amended C1: an active promo is used, an expired one
is not, and the displayed suggestion price tracks promo presence alone. -/
theorem unit_price_and_display_rule_witness :
    unit_price 100 offerActivePromo = 2 ∧
    unit_price 100 offerExpiredPromo = 3 ∧
    sugPrice promoNotLowerSuggestion = 5 := by
  refine ⟨?_, ?_, ?_⟩
  · refine (unit_price_and_display_rule.1 100 offerActivePromo 2 rfl).1 ⟨by decide, ?_⟩
    intro e he
    have h200 : (200 : Int) = e := Option.some.inj he
    omega
  · exact (unit_price_and_display_rule.1 100 offerExpiredPromo 2 rfl).2
      (Or.inr ⟨50, rfl, by decide⟩)
  · exact unit_price_and_display_rule.2.2.1 promoNotLowerSuggestion 5 rfl

/-! ## Claim C2 — ranking order of the compared stores -/

/-- `storeRankLE` is total. -/
theorem storeRankLE_total (a b : TrolleyStoreBreakdown) :
    storeRankLE a b || storeRankLE b a := by
  simp only [storeRankLE, Bool.or_eq_true, Bool.and_eq_true, decide_eq_true_eq]
  rcases Nat.lt_trichotomy (completenessRank a) (completenessRank b) with h | h | h
  · exact Or.inl (Or.inl h)
  · rcases lt_trichotomy a.estimated_total b.estimated_total with ht | ht | ht
    · exact Or.inl (Or.inr ⟨h, Or.inl ht⟩)
    · rcases le_total a.distance_km b.distance_km with hd | hd
      · exact Or.inl (Or.inr ⟨h, Or.inr ⟨ht, hd⟩⟩)
      · exact Or.inr (Or.inr ⟨h.symm, Or.inr ⟨ht.symm, hd⟩⟩)
    · exact Or.inr (Or.inr ⟨h.symm, Or.inl ht⟩)
  · exact Or.inr (Or.inl h)

/-- `storeRankLE` is transitive. -/
theorem storeRankLE_trans (a b c : TrolleyStoreBreakdown)
    (hab : storeRankLE a b) (hbc : storeRankLE b c) : storeRankLE a c := by
  simp only [storeRankLE, Bool.or_eq_true, Bool.and_eq_true,
    decide_eq_true_eq] at hab hbc ⊢
  rcases hab with h1 | ⟨e1, h1⟩
  · rcases hbc with h2 | ⟨e2, _⟩
    · exact Or.inl (h1.trans h2)
    · exact Or.inl (e2 ▸ h1)
  · rcases hbc with h2 | ⟨e2, h2⟩
    · exact Or.inl (e1 ▸ h2)
    · refine Or.inr ⟨e1.trans e2, ?_⟩
      rcases h1 with t1 | ⟨te1, d1⟩
      · rcases h2 with t2 | ⟨te2, _⟩
        · exact Or.inl (t1.trans t2)
        · exact Or.inl (te2 ▸ t1)
      · rcases h2 with t2 | ⟨te2, d2⟩
        · exact Or.inl (te1 ▸ t2)
        · exact Or.inr ⟨te1.trans te2, d1.trans d2⟩

/-- What a true `storeRankLE a b` says about the pair: no incomplete store
precedes a complete one, totals ascend within a completeness group, and
distance breaks total ties. -/
theorem storeRankLE_spec {a b : TrolleyStoreBreakdown}
    (h : storeRankLE a b = true) :
    (b.is_complete = true → a.is_complete = true) ∧
    (a.is_complete = b.is_complete → a.estimated_total ≤ b.estimated_total) ∧
    (a.is_complete = b.is_complete → a.estimated_total = b.estimated_total →
      a.distance_km ≤ b.distance_km) := by
  simp only [storeRankLE, Bool.or_eq_true, Bool.and_eq_true,
    decide_eq_true_eq] at h
  refine ⟨?_, ?_, ?_⟩
  · intro hbc
    by_contra hac
    have ha1 : completenessRank a = 1 := by
      simp [completenessRank, Bool.eq_false_iff.mpr hac]
    have hb0 : completenessRank b = 0 := by
      simp [completenessRank, hbc]
    rcases h with h | ⟨h, _⟩ <;> omega
  · intro he
    have hrank : completenessRank a = completenessRank b := by
      unfold completenessRank
      rw [he]
    rcases h with h | ⟨_, h2⟩
    · exact absurd h (by omega)
    · rcases h2 with t | ⟨te, _⟩
      · exact le_of_lt t
      · exact le_of_eq te
  · intro he hte
    have hrank : completenessRank a = completenessRank b := by
      unfold completenessRank
      rw [he]
    rcases h with h | ⟨_, h2⟩
    · exact absurd h (by omega)
    · rcases h2 with t | ⟨_, d⟩
      · exact absurd hte (ne_of_lt t)
      · exact d

/-- Claim C2: the ranked stores list is ordered by completeness first (a
complete store never follows an incomplete one), then ascending estimated
total within a completeness group, then ascending distance as the tie-break;
and when some complete store exists, the list starts with a complete store
of minimal estimated total among the complete ones. -/
theorem trolley_ranking (stores : List TrolleyStoreBreakdown) :
    (rankStores stores).Pairwise (fun a b =>
        (b.is_complete = true → a.is_complete = true) ∧
        (a.is_complete = b.is_complete → a.estimated_total ≤ b.estimated_total) ∧
        (a.is_complete = b.is_complete → a.estimated_total = b.estimated_total →
          a.distance_km ≤ b.distance_km)) ∧
    ∀ hd tl, rankStores stores = hd :: tl →
      (∃ s ∈ stores, s.is_complete = true) →
      hd.is_complete = true ∧
      ∀ s ∈ stores, s.is_complete = true →
        hd.estimated_total ≤ s.estimated_total := by
  have hpair : (rankStores stores).Pairwise (fun a b => storeRankLE a b = true) :=
    List.sorted_mergeSort storeRankLE_trans storeRankLE_total stores
  constructor
  · exact hpair.imp (fun h => storeRankLE_spec h)
  · intro hd tl heq hex
    have hperm : List.Perm (rankStores stores) stores :=
      List.mergeSort_perm stores storeRankLE
    have hmem : ∀ s ∈ stores, s ∈ hd :: tl := by
      intro s hs
      rw [← heq]
      exact hperm.mem_iff.mpr hs
    have hpair2 : (hd :: tl).Pairwise (fun a b => storeRankLE a b = true) :=
      heq ▸ hpair
    have hhd : ∀ b ∈ tl, storeRankLE hd b = true :=
      (List.pairwise_cons.mp hpair2).1
    obtain ⟨s0, hs0, hs0c⟩ := hex
    have hhdc : hd.is_complete = true := by
      rcases List.mem_cons.mp (hmem s0 hs0) with h | h
      · rw [← h]; exact hs0c
      · exact (storeRankLE_spec (hhd s0 h)).1 hs0c
    refine ⟨hhdc, ?_⟩
    intro s hs hsc
    rcases List.mem_cons.mp (hmem s hs) with h | h
    · rw [h]
    · exact (storeRankLE_spec (hhd s h)).2.1 (hhdc.trans hsc.symm)

/-- Instantiation of C2: with a cheap incomplete store and a dear complete
store, the complete one is ranked first. -/
theorem trolley_ranking_witness :
    ((rankStores [incompleteBreakdown, completeBreakdown]).getD 0
        incompleteBreakdown).is_complete = true := by
  have hcomp : rankStores [incompleteBreakdown, completeBreakdown] =
      [completeBreakdown, incompleteBreakdown] := by
    simp [rankStores, List.mergeSort, List.splitInTwo, List.merge, storeRankLE,
      completenessRank, incompleteBreakdown, completeBreakdown]
  have h := (trolley_ranking [incompleteBreakdown, completeBreakdown]).2
      completeBreakdown [incompleteBreakdown] hcomp
      ⟨completeBreakdown, by simp, rfl⟩
  rw [hcomp]
  exact h.1

end Trolley
